import Mathlib

/-!
Verification development for `kcwater/kcwater.py`, a client for the KC Water
metering web API.  The Python source is shallowly embedded below:

* JSON values reaching the Python code are modelled by `JVal := Option String`
  (`none` is JSON `null`, which Python sees as `None`); a dictionary key that
  may be absent is modelled by an outer `Option` (`none` = key absent, so that
  a lookup raises `KeyError`).  Nested response objects are modelled as
  structures of such fields.
* `datetime.date` values are modelled by `Date` (year/month/day); instants
  (`datetime.datetime`) are modelled as a count of seconds from the
  proleptic-Gregorian epoch 0001-01-01 00:00 via the rata-die day number.
* `datetime.strptime` with the three formats used by the source
  (`%d-%b-%Y`, `%m-%d-%Y`, `%m-%d-%Y %I %p`) is embedded by explicit string
  parsers; a failed parse is `none` (Python: `ValueError`).  Month names and
  AM/PM markers are matched against their standard capitalised forms (the
  forms the upstream API emits; CPython additionally accepts other casings).
  `int()` is modelled on digit strings (the source's inputs carry plain
  digits).
* Python exceptions are `PyErr`; a function that can raise returns
  `Except PyErr _` or `Option _`.
* The mutable `KCWater` client object is modelled by explicit state passing:
  each method takes the state and returns the updated state.  The constant
  endpoint URL fields and the borrowed aiohttp session are not part of the
  model, and `logging` calls are ignored (they do not affect state or
  results).
-/

/-- A JSON leaf value as exposed to the Python code: a string or `null`
(Python `None`). -/
abbrev JVal := Option String

/-- Python truthiness of a `JVal`: `None` and `""` are falsy, any other
string is truthy. -/
def truthy : JVal → Bool
  | none => false
  | some s => s ≠ ""

/-- Python `str()` of a `JVal` (used by f-strings and `.format`):
`str(None) = "None"`. -/
def pyStr : JVal → String
  | none => "None"
  | some s => s

/-- Splitting of a string at every occurrence of a single-character
separator, keeping empty pieces — the behaviour of Python's
`str.split(sep)` and of `String.splitOn` for the one-character separators
the source uses (defined by structural recursion over the characters so
that concrete instances reduce inside proofs). -/
def pySplit (sep : Char) (s : String) : List String :=
  pySplit.go sep s.data []
where
  go (sep : Char) : List Char → List Char → List String
    | [], acc => [String.mk acc.reverse]
    | c :: cs, acc =>
      if c = sep then String.mk acc.reverse :: go sep cs []
      else go sep cs (c :: acc)

/-- A nonempty all-digit string (the strings `int()` accepts among those the
API emits; CPython's `int()` also tolerates signs and surrounding
whitespace, which never occur here). -/
def isDigits (s : String) : Bool := s.data ≠ [] && s.data.all (·.isDigit)

/-- Numeric value of a digit string. -/
def digitsToNat (s : String) : Nat := s.data.foldl (fun a c => a * 10 + (c.toNat - 48)) 0

/-- A proleptic-Gregorian calendar date, as `datetime.date`. -/
structure Date where
  year : Nat
  month : Nat
  day : Nat
deriving DecidableEq, Repr

/-- Gregorian leap-year test. -/
def isLeap (y : Nat) : Bool := y % 4 == 0 && (y % 100 != 0 || y % 400 == 0)

/-- Number of days in month `m` of year `y`. -/
def daysInMonth (y m : Nat) : Nat :=
  if m = 2 then (if isLeap y then 29 else 28)
  else if m = 4 ∨ m = 6 ∨ m = 9 ∨ m = 11 then 30
  else 31

/-- Days in the months `1 .. m-1` of year `y`. -/
def daysBeforeMonth (y m : Nat) : Nat :=
  (List.range (m - 1)).foldl (fun a i => a + daysInMonth y (i + 1)) 0

/-- Rata-die day number of a date: day 1 is 0001-01-01. -/
def toRataDie (d : Date) : Nat :=
  365 * (d.year - 1) + (d.year - 1) / 4 - (d.year - 1) / 100 + (d.year - 1) / 400
    + daysBeforeMonth d.year d.month + d.day

/-- The instant (seconds from the epoch) at which calendar day `d`
begins (midnight), i.e. `datetime(d.year, d.month, d.day)`. -/
def dayStart (d : Date) : Nat := (toRataDie d - 1) * 86400

/-- Python `datetime.date` comparison `a < b` (lexicographic on year, month, day). -/
def dateLt (a b : Date) : Bool :=
  decide (a.year < b.year ∨ (a.year = b.year ∧
    (a.month < b.month ∨ (a.month = b.month ∧ a.day < b.day))))

/-- The validation performed by the `datetime` constructor: `strptime`
raises `ValueError` unless year, month and day are in range. -/
def mkDate (y m d : Nat) : Option Date :=
  if 1 ≤ y ∧ y ≤ 9999 ∧ 1 ≤ m ∧ m ≤ 12 ∧ 1 ≤ d ∧ d ≤ daysInMonth y m then
    some ⟨y, m, d⟩
  else none

/-- Abbreviated English month names, as produced/accepted by `%b`. -/
def monthAbbrevs : List String :=
  ["Jan", "Feb", "Mar", "Apr", "May", "Jun", "Jul", "Aug", "Sep", "Oct", "Nov", "Dec"]

/-- Format code `%b`: match an abbreviated month name, yielding the month number. -/
def parseMonthName (s : String) : Option Nat :=
  (monthAbbrevs.findIdx? (· = s)).map (· + 1)

/-- A 1- or 2-digit numeric field (`%d`, `%m`, `%I`); range checks are done
by the caller, as by `datetime`'s validation. -/
def parseNum2 (s : String) : Option Nat :=
  if isDigits s ∧ s.data.length ≤ 2 then some (digitsToNat s) else none

/-- Format code `%Y`: exactly four digits. -/
def parseYear4 (s : String) : Option Nat :=
  if isDigits s ∧ s.data.length = 4 then some (digitsToNat s) else none

/-- Embeds `datetime.strptime(s, "%d-%b-%Y")`, e.g. `"15-Jan-2024"`. -/
def strptime_dbY (s : String) : Option Date :=
  match pySplit '-' s with
  | [ds, ms, ys] => do
    let d ← parseNum2 ds
    let m ← parseMonthName ms
    let y ← parseYear4 ys
    mkDate y m d
  | _ => none

/-- Embeds `datetime.strptime(s, "%m-%d-%Y")`, e.g. `"01-15-2024"`. -/
def strptime_mdY (s : String) : Option Date :=
  match pySplit '-' s with
  | [ms, ds, ys] => do
    let m ← parseNum2 ms
    let d ← parseNum2 ds
    let y ← parseYear4 ys
    mkDate y m d
  | _ => none

/-- The dual-format charge-date parse of `valid_charge_date` (source lines
37-40): try `"%d-%b-%Y"`, and on `ValueError` fall back to `"%m-%d-%Y"`;
`none` means the second attempt also raised, which propagates. -/
def parse_charge_date (s : String) : Option Date :=
  match strptime_dbY s with
  | some d => some d
  | none => strptime_mdY s

/-- Format codes `%I %p`, hour-of-day semantics of `strptime`: 12-hour clock, where
`12 AM` is hour 0 and `12 PM` is hour 12. -/
def hour24_of_12 (h : Nat) (pm : Bool) : Nat :=
  if pm then (if h = 12 then 12 else h + 12) else (if h = 12 then 0 else h)

/-- Embeds the `datetime.strptime` call of source lines 138-140, which parses
the f-string interpolation of the record's readDate and readDateTime with
format `"%m-%d-%Y %I %p"`, taking the two interpolated strings directly: the
format matches at the spaces, so the combined parse decomposes into a
`"%m-%d-%Y"` parse of `readDate` and an `"%I %p"` parse of `readDateTime`.
Returns the instant, in seconds from the epoch. -/
def strptime_mdY_Ip (readDate readDateTime : String) : Option Nat := do
  let d ← strptime_mdY readDate
  match pySplit ' ' readDateTime with
  | [hs, ps] => do
    let h ← parseNum2 hs
    if 1 ≤ h ∧ h ≤ 12 then
      let pm ← if ps = "PM" then some true else if ps = "AM" then some false else none
      some (dayStart d + hour24_of_12 h pm * 3600)
    else none
  | _ => none

/-- Zero-pad a number to two digits (`%d` formatting). -/
def pad2 (n : Nat) : String := if n < 10 then "0" ++ toString n else toString n

/-- Embeds `d.strftime("%d-%b-%Y")` (source line 120), e.g. `"05-Jan-2024"`. -/
def strftime_dbY (d : Date) : String :=
  pad2 d.day ++ "-" ++ (monthAbbrevs.getD (d.month - 1) "") ++ "-" ++ toString d.year

/-- The raw history record consumed by `valid_charge_date`: the two dict
keys it reads.  Outer `Option` = key presence, inner `JVal` = the value. -/
structure ChargeRecord where
  chargeDateRaw : Option JVal
  readDateTime : Option JVal
deriving DecidableEq

/-- Embeds `valid_charge_date(history_obj)` against a given `today` (date) and
`now` (instant), source lines 33-51.  `none` models a raised exception
(`KeyError` on a missing key, `TypeError` on `strptime(None, ...)`,
`ValueError`/`IndexError` in the date or time parse); `some b` is a normal
return.  Python evaluation order is preserved: `history_obj["readDateTime"]`
is only looked up when the parsed date equals `today` (the `and`
short-circuits), and a falsy value there falls through to `valid_date`. -/
def valid_charge_date (history_obj : ChargeRecord) (today : Date) (now : Nat) :
    Option Bool := do
  let v ← history_obj.chargeDateRaw
  let date_string ← v
  let d ← parse_charge_date date_string
  let valid_date := dateLt d today
  if d = today then
    let rdt ← history_obj.readDateTime
    if truthy rdt then
      let time_split := pySplit ' ' (pyStr rdt)
      match time_split with
      | _ :: m :: _ =>
        let hs := time_split.headD ""
        if isDigits hs then
          let d_hour := if m = "AM" then digitsToNat hs else digitsToNat hs + 12
          some (decide (dayStart d + (d_hour + 1) * 3600 ≤ now))
        else none
      | _ => none
    else
      some valid_date
  else
    some valid_date

/-- Embeds `strip_future_data(dataset) = list(filter(valid_charge_date, dataset))`
(source lines 54-55).  `filter` calls the predicate left to right and the
first raised exception aborts the whole call (`none`). -/
def strip_future_data (dataset : List ChargeRecord) (today : Date) (now : Nat) :
    Option (List ChargeRecord) :=
  match dataset with
  | [] => some []
  | r :: rest =>
    match valid_charge_date r today now with
    | none => none
    | some b =>
      (strip_future_data rest today now).map (fun l => if b then r :: l else l)

/-- Python exception kinds raised by the embedded code. -/
inductive PyErr
  | keyError
  | typeError
  | valueError
  | indexError
deriving DecidableEq, Repr

/-- Dictionary lookup `d["k"]`: `KeyError` when the key is absent. -/
def dget : Option JVal → Except PyErr JVal
  | none => Except.error PyErr.keyError
  | some v => Except.ok v

/-- The headers dict built during `_get_token`; both keys start absent
(`self.headers = {}` in `__init__`). -/
structure Headers where
  authorization : Option String
  contentType : Option String
deriving DecidableEq

/-- The mutable state of a `KCWater` client (source lines 59-73, minus the
borrowed aiohttp session and the four constant URL fields). -/
structure KCWater where
  loggedIn : Bool
  headers : Headers
  username : String
  password : String
  account_number : Option String
  customer_id : Option String
  service_id : Option String
  access_token : Option String
  account_port : Nat
deriving DecidableEq

/-- Embeds `KCWater.__init__` (source lines 59-73). -/
def KCWater.init (username password : String) : KCWater where
  loggedIn := false
  headers := ⟨none, none⟩
  username := username
  password := password
  account_number := none
  customer_id := none
  service_id := none
  access_token := none
  account_port := 1

/-- The decoded JSON of the token endpoint: `{access_token, user: {customerId}}`.
Outer `Option` on each field = key presence. -/
structure TokenUser where
  customerId : Option JVal
deriving DecidableEq

structure TokenResponse where
  access_token : Option JVal
  user : Option TokenUser
deriving DecidableEq

/-- The decoded JSON of the customer-info endpoint:
`{accountSummaryType: {services: [{serviceId}, ...]}, accountContext: {accountNumber}}`. -/
structure SvcEntry where
  serviceId : Option JVal
deriving DecidableEq

structure SummaryType where
  services : Option (List SvcEntry)
deriving DecidableEq

structure AcctContext where
  accountNumber : Option JVal
deriving DecidableEq

structure CustomerResponse where
  accountSummaryType : Option SummaryType
  accountContext : Option AcctContext
deriving DecidableEq

/-- Embeds `KCWater._get_token` (source lines 75-91) applied to the decoded token
response.  Returns the state as mutated up to the point of a raised
exception (`some e`), mirroring Python's in-place field assignments: a key
lookup that fails leaves the assignments already made in place. -/
def KCWater._get_token (s : KCWater) (login_data : TokenResponse) :
    KCWater × Option PyErr :=
  match login_data.access_token with
  | none => (s, some PyErr.keyError)
  | some tok =>
    let s := { s with access_token := tok }
    match login_data.user with
    | none => (s, some PyErr.keyError)
    | some u =>
      match u.customerId with
      | none => (s, some PyErr.keyError)
      | some cid =>
        let s := { s with customer_id := cid }
        let s := { s with headers :=
          { s.headers with authorization := some ("Bearer " ++ pyStr tok) } }
        ({ s with headers :=
          { s.headers with contentType := some "application/json" } }, none)

/-- Embeds `KCWater._get_customer_info` (source lines 93-103) applied to the
decoded customer-info response. -/
def KCWater._get_customer_info (s : KCWater) (customer_info : CustomerResponse) :
    KCWater × Option PyErr :=
  match customer_info.accountSummaryType with
  | none => (s, some PyErr.keyError)
  | some st =>
    match st.services with
    | none => (s, some PyErr.keyError)
    | some svcs =>
      match svcs with
      | [] => (s, some PyErr.indexError)
      | e :: _ =>
        match e.serviceId with
        | none => (s, some PyErr.keyError)
        | some sid =>
          let s := { s with service_id := sid }
          match customer_info.accountContext with
          | none => (s, some PyErr.keyError)
          | some ac =>
            match ac.accountNumber with
            | none => (s, some PyErr.keyError)
            | some an => ({ s with account_number := an }, none)

/-- Embeds `KCWater.login` (source lines 105-113): run the two steps in order; an
exception in either step propagates and the final `loggedIn` assignment
(line 108) does not run.  The `is not None` tests are `Option.isSome` on
the stored fields. -/
def KCWater.login (s : KCWater) (tokenResp : TokenResponse)
    (customerResp : CustomerResponse) : KCWater × Option PyErr :=
  match s._get_token tokenResp with
  | (s1, some e) => (s1, some e)
  | (s1, none) =>
    match s1._get_customer_info customerResp with
    | (s2, some e) => (s2, some e)
    | (s2, none) =>
      ({ s2 with loggedIn :=
          s2.account_number.isSome && s2.service_id.isSome
            && s2.customer_id.isSome && s2.access_token.isSome }, none)

/-- One raw record of the hourly-usage response's `history` array: the
eight keys the parse loop reads.  Outer `Option` = key presence, inner
`JVal` = the (string or null) value. -/
structure RawRecord where
  readDate : Option JVal
  readDateTime : Option JVal
  uom : Option JVal
  meterNumber : Option JVal
  gallonsConsumption : Option JVal
  rawConsumption : Option JVal
  scaledRead : Option JVal
  port : Option JVal
deriving DecidableEq

/-- The decoded JSON of the hourly-usage endpoint: `{history: [...]}`. -/
structure UsageResponse where
  history : Option (List RawRecord)
deriving DecidableEq

/-- The `Reading` dataclass (source lines 11-19).  `readDateTime` holds the
parsed `datetime` (an instant in our model).  The remaining fields hold
whatever the response dict contained — the dataclass annotations `str` /
`Optional[str]` are not enforced at runtime, so each is a `JVal`. -/
structure Reading where
  readDateTime : Nat
  uom : JVal
  meterNumber : JVal
  gallonsConsumption : JVal
  rawConsumption : JVal
  scaledRead : JVal
  port : JVal
deriving DecidableEq

/-- The body of the `for r in usageData["history"]` loop (source lines
137-150): lookups happen in Python evaluation order — `readDate` and
`readDateTime` inside the f-string, the `strptime` call, then the keyword
arguments `uom`, `meterNumber`, `rawConsumption`, `port`,
`gallonsConsumption`, `scaledRead`. -/
def parseReading (r : RawRecord) : Except PyErr Reading := do
  let rd ← dget r.readDate
  let rt ← dget r.readDateTime
  let readDate ← match strptime_mdY_Ip (pyStr rd) (pyStr rt) with
    | some t => Except.ok t
    | none => Except.error PyErr.valueError
  let uom ← dget r.uom
  let meterNumber ← dget r.meterNumber
  let rawConsumption ← dget r.rawConsumption
  let port ← dget r.port
  let gallonsConsumption ← dget r.gallonsConsumption
  let scaledRead ← dget r.scaledRead
  Except.ok
    { readDateTime := readDate
      uom := uom
      meterNumber := meterNumber
      gallonsConsumption := gallonsConsumption
      rawConsumption := rawConsumption
      scaledRead := scaledRead
      port := port }

/-- The whole parse loop: records are processed in response order and the
first exception aborts the call (fail-fast, no partial list). -/
def parseHistory : List RawRecord → Except PyErr (List Reading)
  | [] => Except.ok []
  | r :: rs => do
    let reading ← parseReading r
    let rest ← parseHistory rs
    Except.ok (reading :: rest)

/-- The JSON body POSTed to the hourly-usage endpoint (source lines
121-130). -/
structure UsagePayload where
  customerId : String
  accountNumber : String
  serviceId : String
  month : String
  day : String
  port : String
deriving DecidableEq

/-- The observable result of one `get_usage_hourly` call: the client state
afterwards, whether the network was hit and with which payload, and the
returned value (`Except` for a raised exception; `Option` because the
not-logged-in path returns `None`). -/
structure FetchResult where
  state : KCWater
  networkCalled : Bool
  payload : Option UsagePayload
  outcome : Except PyErr (Option (List Reading))

/-- Embeds `KCWater.get_usage_hourly` (source lines 115-153).  `moduleToday` is
the module-level `today = date.today()` (source line 29), evaluated once
when the module loads: it is the value of the `date=today` default, so a
call with `dateArg = none` uses it.  `resp` is the decoded JSON the server
would answer with; when the guard fails the request is never issued. -/
def KCWater.get_usage_hourly (s : KCWater) (moduleToday : Date)
    (dateArg : Option Date) (resp : UsageResponse) : FetchResult :=
  if !s.loggedIn then
    { state := s, networkCalled := false, payload := none,
      outcome := Except.ok none }
  else
    let date := dateArg.getD moduleToday
    let formatted_date := strftime_dbY date
    let req_payload : UsagePayload :=
      { customerId := pyStr s.customer_id
        accountNumber := pyStr s.account_number
        serviceId := pyStr s.service_id
        month := formatted_date
        day := formatted_date
        port := toString s.account_port }
    let outcome : Except PyErr (Option (List Reading)) := do
      let history ← match resp.history with
        | none => Except.error PyErr.keyError
        | some rs => Except.ok rs
      let readings ← parseHistory history
      Except.ok (some readings)
    { state := s, networkCalled := true, payload := some req_payload,
      outcome := outcome }

/-! ### Claim-side definitions

The following definitions transcribe the spec's wording (not the code) and
are used to state refinement-style claims against the embedded source. -/

/-- Spec wording for the time field of a charge record: a well-formed
`"<hour> <AM|PM>"` string — an hour given by digits, a space, and one of
the two meridiem markers. -/
def timeWF (v : JVal) : Bool :=
  match v with
  | some t =>
    match pySplit ' ' t with
    | [hs, ps] => isDigits hs && (ps = "AM" || ps = "PM")
    | _ => false
  | none => false

/-- Spec wording for the cutoff hour of the settledness check: the hour of
a `"<hour> <AM|PM>"` string "converted to 24-hour hour-of-day (add 12 if
PM)".  Junk (0) on other shapes. -/
def claimHour24 (v : JVal) : Nat :=
  match v with
  | some t =>
    match pySplit ' ' t with
    | [hs, ps] => if ps = "PM" then digitsToNat hs + 12 else digitsToNat hs
    | _ => 0
  | none => 0

/-- The records on which the claims' settledness discussion is defined: the
charge date is a present, parsable string, and whenever the time branch
would be consulted (parsed date equal to the reference date) the
`readDateTime` key is present and its value, if truthy, is a well-formed
`"<hour> <AM|PM>"` string. -/
def chargeWF (r : ChargeRecord) (today : Date) : Bool :=
  match r.chargeDateRaw with
  | some (some ds) =>
    match parse_charge_date ds with
    | some d =>
      if d = today then
        match r.readDateTime with
        | some v => !truthy v || timeWF v
        | none => false
      else true
    | none => false
  | _ => false

/-- Spec wording for hourly-usage records the parser accepts: all eight
keys present, and the `readDate`/`readDateTime` values combine into a
parsable 12-hour-clock timestamp. -/
def hourlyWF (r : RawRecord) : Bool :=
  r.readDate.isSome && r.readDateTime.isSome && r.uom.isSome && r.meterNumber.isSome
    && r.gallonsConsumption.isSome && r.rawConsumption.isSome && r.scaledRead.isSome
    && r.port.isSome
    && (strptime_mdY_Ip (pyStr (r.readDate.getD none)) (pyStr (r.readDateTime.getD none))).isSome

/-- Spec wording for the Reading a well-formed raw record should map to:
`readDateTime` is the 12-hour-clock combination of the record's `readDate`
(month-day-year) and `readDateTime` hour strings, and every other field is
copied verbatim.  (Junk timestamp 0 on ill-formed records.) -/
def specReading (r : RawRecord) : Reading :=
  { readDateTime :=
      (strptime_mdY_Ip (pyStr (r.readDate.getD none)) (pyStr (r.readDateTime.getD none))).getD 0
    uom := r.uom.getD none
    meterNumber := r.meterNumber.getD none
    gallonsConsumption := r.gallonsConsumption.getD none
    rawConsumption := r.rawConsumption.getD none
    scaledRead := r.scaledRead.getD none
    port := r.port.getD none }

/-- A representative client state after a successful login, used by the
concrete instances below. -/
def sampleClient : KCWater where
  loggedIn := true
  headers := ⟨some "Bearer tok", some "application/json"⟩
  username := "user"
  password := "pw"
  account_number := some "acct"
  customer_id := some "cid"
  service_id := some "sid"
  access_token := some "tok"
  account_port := 1

/-! ### Helper lemmas -/

lemma dateLt_irrefl (a : Date) : dateLt a a = false := by
  simp [dateLt]

lemma dateLt_asymm {a b : Date} (h : dateLt a b = true) : dateLt b a = false := by
  simp only [dateLt, decide_eq_true_eq, decide_eq_false_iff_not] at *
  omega

/-- Unfolding of `valid_charge_date` when the charge date fails to parse:
the exception propagates. -/
lemma vcd_parse_none (r : ChargeRecord) (td : Date) (nw : Nat) (ds : String)
    (hraw : r.chargeDateRaw = some (some ds)) (hp : parse_charge_date ds = none) :
    valid_charge_date r td nw = none := by
  simp [valid_charge_date, hraw, hp]

/-- Unfolding of `valid_charge_date` when the parsed date differs from
`today`: the result is the date comparison alone. -/
lemma vcd_ne_today (r : ChargeRecord) (td : Date) (nw : Nat) (ds : String) (d : Date)
    (hraw : r.chargeDateRaw = some (some ds)) (hp : parse_charge_date ds = some d)
    (hne : d ≠ td) :
    valid_charge_date r td nw = some (dateLt d td) := by
  simp [valid_charge_date, hraw, hp, hne]

/-- Unfolding of `valid_charge_date` when the parsed date is `today` but
the time value is falsy: fall through to the date comparison. -/
lemma vcd_today_falsy (r : ChargeRecord) (td : Date) (nw : Nat) (ds : String) (v : JVal)
    (hraw : r.chargeDateRaw = some (some ds)) (hp : parse_charge_date ds = some td)
    (hrt : r.readDateTime = some v) (hf : truthy v = false) :
    valid_charge_date r td nw = some false := by
  simp [valid_charge_date, hraw, hp, hrt, hf, dateLt_irrefl]

/-- Unfolding of `valid_charge_date` on the today-with-time branch. -/
lemma vcd_today_time (r : ChargeRecord) (td : Date) (nw : Nat) (ds : String) (v : JVal)
    (hs m : String) (rest : List String)
    (hraw : r.chargeDateRaw = some (some ds)) (hp : parse_charge_date ds = some td)
    (hrt : r.readDateTime = some v) (ht : truthy v = true)
    (hsplit : pySplit ' ' (pyStr v) = hs :: m :: rest) (hdig : isDigits hs = true) :
    valid_charge_date r td nw =
      some (decide (dayStart td +
        ((if m = "AM" then digitsToNat hs else digitsToNat hs + 12) + 1) * 3600 ≤ nw)) := by
  simp [valid_charge_date, hraw, hp, hrt, ht, hsplit, hdig]

/-- C4: for every record with a parsable `chargeDateRaw` (and a well-formed
time field where it matters), `valid_charge_date` returns true iff either
the parsed date is strictly before the reference date (regardless of
`readDateTime`), or the parsed date equals the reference date, the
`readDateTime` value is non-empty, and the reference instant is at or after
the parsed date plus the hour converted to 24-hour form (add 12 if PM) plus
one extra hour; consequently a date strictly after the reference date is
never settled, and a today-dated record with an absent (null) or empty time
is not settled. -/
theorem claim_C4 (r : ChargeRecord) (today : Date) (now : Nat) (ds : String) (d : Date)
    (hraw : r.chargeDateRaw = some (some ds))
    (hp : parse_charge_date ds = some d)
    (hwf : chargeWF r today = true) :
    (valid_charge_date r today now = some true ↔
      (dateLt d today = true ∨
        (d = today ∧ truthy (r.readDateTime.getD none) = true ∧
          dayStart d + (claimHour24 (r.readDateTime.getD none) + 1) * 3600 ≤ now)))
    ∧ (dateLt today d = true → valid_charge_date r today now = some false)
    ∧ (d = today → truthy (r.readDateTime.getD none) = false →
        valid_charge_date r today now = some false) := by
  by_cases hdt : d = today
  · subst hdt
    rcases hv : r.readDateTime with _ | v
    · exfalso
      simp [chargeWF, hraw, hp, hv] at hwf
    · rcases htv : truthy v with _ | _
      · have hres := vcd_today_falsy r d now ds v hraw hp hv htv
        refine ⟨?_, ?_, fun _ _ => hres⟩
        · rw [hres]
          simp [dateLt_irrefl, hv, htv]
        · intro habs
          rw [dateLt_irrefl] at habs
          exact absurd habs (by simp)
      · have htw : timeWF v = true := by
          simp [chargeWF, hraw, hp, hv, htv] at hwf
          exact hwf
        rcases v with _ | t
        · simp [truthy] at htv
        · rcases hsp : pySplit ' ' t with _ | ⟨hs, _ | ⟨ps, _ | _⟩⟩ <;>
            rw [timeWF] at htw <;> rw [hsp] at htw <;> simp at htw
          obtain ⟨hdig, hmer⟩ := htw
          have hres := vcd_today_time r d now ds (some t) hs ps [] hraw hp hv htv
            (by simpa [pyStr] using hsp) hdig
          have hch : claimHour24 (some t) =
              (if ps = "AM" then digitsToNat hs else digitsToNat hs + 12) := by
            rcases hmer with hm | hm <;> subst hm <;> simp [claimHour24, hsp]
          refine ⟨?_, ?_, ?_⟩
          · rw [hres]
            simp [dateLt_irrefl, hv, htv, hch]
          · intro habs
            rw [dateLt_irrefl] at habs
            exact absurd habs (by simp)
          · intro _ habs
            exact absurd habs (by simp [htv])
  · have hres := vcd_ne_today r today now ds d hraw hp hdt
    refine ⟨?_, ?_, fun heq _ => absurd heq hdt⟩
    · rw [hres]
      simp [hdt]
    · intro hgt
      rw [hres, dateLt_asymm hgt]

/-- Witness for C4: a record dated 2024-01-14 checked against reference
date 2024-01-15 is settled at any instant. -/
theorem claim_C4_witness :
    valid_charge_date ⟨some (some "01-14-2024"), some (some "3 PM")⟩ ⟨2024, 1, 15⟩ 0
      = some true := by
  have h := claim_C4 ⟨some (some "01-14-2024"), some (some "3 PM")⟩ ⟨2024, 1, 15⟩ 0
    "01-14-2024" ⟨2024, 1, 14⟩ rfl (by decide) (by decide)
  exact h.1.mpr (Or.inl (by decide))

/-- C10: the 12-hour-to-24-hour conversion of the settledness check treats
hour 12 literally: a today-dated record with time "12 AM" has cutoff
today's midnight plus 13 hours (12 + 1), and with "12 PM" the cutoff is
midnight plus 25 hours (12 + 12 + 1), i.e. 01:00 of the next day — so a
noon record is never settled at any instant of its own day. -/
theorem claim_C10 (td : Date) (now : Nat) (ds : String)
    (hp : parse_charge_date ds = some td) :
    (valid_charge_date ⟨some (some ds), some (some "12 PM")⟩ td now
        = some (decide (dayStart td + 25 * 3600 ≤ now)))
    ∧ (valid_charge_date ⟨some (some ds), some (some "12 AM")⟩ td now
        = some (decide (dayStart td + 13 * 3600 ≤ now)))
    ∧ (now < dayStart td + 86400 →
        valid_charge_date ⟨some (some ds), some (some "12 PM")⟩ td now = some false) := by
  have hpm := vcd_today_time ⟨some (some ds), some (some "12 PM")⟩ td now ds
    (some "12 PM") "12" "PM" [] rfl hp rfl (by decide) (by decide) (by decide)
  have ham := vcd_today_time ⟨some (some ds), some (some "12 AM")⟩ td now ds
    (some "12 AM") "12" "AM" [] rfl hp rfl (by decide) (by decide) (by decide)
  have h25 : ((if ("PM" : String) = "AM" then digitsToNat "12" else digitsToNat "12" + 12) + 1)
      = 25 := by decide
  have h13 : ((if ("AM" : String) = "AM" then digitsToNat "12" else digitsToNat "12" + 12) + 1)
      = 13 := by decide
  rw [h25] at hpm
  rw [h13] at ham
  refine ⟨hpm, ham, fun hlt => ?_⟩
  rw [hpm]
  have hno : ¬ (dayStart td + 25 * 3600 ≤ now) := by omega
  simp [hno]

/-- Witness for C10: a noon record dated 2024-01-15 is settled at
2024-01-16 01:00 (the instant 63840963600). -/
theorem claim_C10_witness :
    valid_charge_date ⟨some (some "01-15-2024"), some (some "12 PM")⟩ ⟨2024, 1, 15⟩
      63840963600 = some true := by
  have h := (claim_C10 ⟨2024, 1, 15⟩ 63840963600 "01-15-2024" (by decide)).1
  rw [h]
  decide

/-- C7: charge-date parsing tries exactly the two formats in order —
day-ShortMonth-Year first, then month-day-year — with the first success
winning; both "15-Jan-2024" and "01-15-2024" parse to January 15 2024; and
when both formats fail, `valid_charge_date` propagates a fatal parse error
(no default value) for any record carrying that string. -/
theorem claim_C7 :
    (∀ s d, strptime_dbY s = some d → parse_charge_date s = some d)
    ∧ (∀ s, strptime_dbY s = none → parse_charge_date s = strptime_mdY s)
    ∧ parse_charge_date "15-Jan-2024" = some ⟨2024, 1, 15⟩
    ∧ parse_charge_date "01-15-2024" = some ⟨2024, 1, 15⟩
    ∧ (∀ (r : ChargeRecord) (ds : String) (td : Date) (nw : Nat),
        r.chargeDateRaw = some (some ds) → parse_charge_date ds = none →
        valid_charge_date r td nw = none) := by
  refine ⟨?_, ?_, by decide, by decide, ?_⟩
  · intro s d h
    simp [parse_charge_date, h]
  · intro s h
    simp [parse_charge_date, h]
  · intro r ds td nw hraw hp
    exact vcd_parse_none r td nw ds hraw hp

/-- Witness for C7: the two concrete formats agree, and a string matching
neither format is a fatal error for the filter. -/
theorem claim_C7_witness :
    parse_charge_date "15-Jan-2024" = parse_charge_date "01-15-2024"
    ∧ valid_charge_date ⟨some (some "99-99-9999"), some (some "7 AM")⟩ ⟨2024, 1, 15⟩ 0
        = none := by
  refine ⟨claim_C7.2.2.1.trans claim_C7.2.2.2.1.symm, ?_⟩
  exact claim_C7.2.2.2.2 ⟨some (some "99-99-9999"), some (some "7 AM")⟩ "99-99-9999"
    ⟨2024, 1, 15⟩ 0 rfl (by decide)

/-- Helper for C8: when the filter predicate raises on no element,
`strip_future_data` is exactly the element-wise `List.filter` by the
records on which `valid_charge_date` returned `true`. -/
lemma strip_eq_filter (l : List ChargeRecord) (td : Date) (nw : Nat)
    (h : ∀ r ∈ l, (valid_charge_date r td nw).isSome = true) :
    strip_future_data l td nw
      = some (l.filter fun r => valid_charge_date r td nw == some true) := by
  induction l with
  | nil => simp [strip_future_data]
  | cons r rest ih =>
    have hr := h r (by simp)
    have hrest : ∀ x ∈ rest, (valid_charge_date x td nw).isSome = true :=
      fun x hx => h x (by simp [hx])
    obtain ⟨b, hb⟩ := Option.isSome_iff_exists.mp hr
    rw [strip_future_data, hb, ih hrest]
    cases b <;> simp [List.filter_cons, hb]

/-- C8: on every sequence of records on which the settledness predicate is
defined, `strip_future_data` equals the element-wise filter by
`valid_charge_date`, keeps retained records in their relative order (the
result is a sublist of the input), and is idempotent. -/
theorem claim_C8 (dataset : List ChargeRecord) (today : Date) (now : Nat)
    (h : ∀ r ∈ dataset, (valid_charge_date r today now).isSome = true) :
    strip_future_data dataset today now
        = some (dataset.filter fun r => valid_charge_date r today now == some true)
    ∧ (dataset.filter fun r => valid_charge_date r today now == some true).Sublist dataset
    ∧ strip_future_data
        (dataset.filter fun r => valid_charge_date r today now == some true) today now
        = some (dataset.filter fun r => valid_charge_date r today now == some true) := by
  refine ⟨strip_eq_filter dataset today now h, List.filter_sublist dataset, ?_⟩
  have hsub : ∀ r ∈ (dataset.filter fun r => valid_charge_date r today now == some true),
      (valid_charge_date r today now).isSome = true :=
    fun r hr => h r (List.mem_of_mem_filter hr)
  have hself : ((dataset.filter fun r => valid_charge_date r today now == some true).filter
        fun r => valid_charge_date r today now == some true)
      = dataset.filter fun r => valid_charge_date r today now == some true := by
    apply List.filter_eq_self.mpr
    intro a ha
    simp only [List.mem_filter] at ha
    exact ha.2
  rw [strip_eq_filter _ today now hsub, hself]

/-- Witness for C8: a past and a future record; the filter keeps only the
past one, and filtering again changes nothing. -/
theorem claim_C8_witness :
    strip_future_data
        [⟨some (some "01-14-2024"), none⟩, ⟨some (some "01-16-2024"), some (some "7 AM")⟩]
        ⟨2024, 1, 15⟩ 0
      = some [⟨some (some "01-14-2024"), none⟩]
    ∧ strip_future_data [⟨some (some "01-14-2024"), none⟩] ⟨2024, 1, 15⟩ 0
      = some [⟨some (some "01-14-2024"), none⟩] := by
  have h := claim_C8
    [⟨some (some "01-14-2024"), none⟩, ⟨some (some "01-16-2024"), some (some "7 AM")⟩]
    ⟨2024, 1, 15⟩ 0 (by decide)
  have hfil :
      ([⟨some (some "01-14-2024"), none⟩, ⟨some (some "01-16-2024"), some (some "7 AM")⟩].filter
        fun r => valid_charge_date r ⟨2024, 1, 15⟩ 0 == some true)
      = [(⟨some (some "01-14-2024"), none⟩ : ChargeRecord)] := by decide
  refine ⟨?_, ?_⟩
  · rw [h.1, hfil]
  · have h3 := h.2.2
    rw [hfil] at h3
    exact h3

/-- Helper: `_get_token` never touches the `loggedIn` flag. -/
lemma get_token_loggedIn (s : KCWater) (tr : TokenResponse) :
    (s._get_token tr).1.loggedIn = s.loggedIn := by
  rcases tr with ⟨at?, u?⟩
  rcases at? with _ | tok
  · rfl
  · rcases u? with _ | ⟨cid?⟩
    · rfl
    · rcases cid? with _ | cid <;> rfl

/-- Helper: `_get_customer_info` never touches the `loggedIn` flag. -/
lemma get_customer_info_loggedIn (s : KCWater) (cr : CustomerResponse) :
    (s._get_customer_info cr).1.loggedIn = s.loggedIn := by
  rcases cr with ⟨st?, ac?⟩
  rcases st? with _ | ⟨svcs?⟩
  · rfl
  · rcases svcs? with _ | ⟨_ | ⟨⟨sid?⟩, rest⟩⟩
    · rfl
    · rfl
    · rcases sid? with _ | sid
      · rfl
      · rcases ac? with _ | ⟨an?⟩
        · rfl
        · rcases an? with _ | an <;> rfl


/-- Helper: when both steps complete without an exception, `login` sets the
flag to the four-field non-null conjunction over the final state. -/
lemma login_ok_loggedIn (s : KCWater) (tr : TokenResponse) (cr : CustomerResponse)
    (h : (s.login tr cr).2 = none) :
    (s.login tr cr).1.loggedIn =
      ((s.login tr cr).1.account_number.isSome && (s.login tr cr).1.service_id.isSome
        && (s.login tr cr).1.customer_id.isSome && (s.login tr cr).1.access_token.isSome) := by
  rcases h1 : s._get_token tr with ⟨sa, _ | e⟩
  · rcases h2 : sa._get_customer_info cr with ⟨sb, _ | e⟩
    · simp [KCWater.login, h1, h2]
    · simp [KCWater.login, h1, h2] at h
  · simp [KCWater.login, h1] at h

/-- Helper: when either step raises, the final `loggedIn` assignment never
runs, so the flag keeps its previous value. -/
lemma login_err_loggedIn (s : KCWater) (tr : TokenResponse) (cr : CustomerResponse)
    (h : (s.login tr cr).2 ≠ none) :
    (s.login tr cr).1.loggedIn = s.loggedIn := by
  have ht := get_token_loggedIn s tr
  rcases h1 : s._get_token tr with ⟨sa, _ | e⟩
  · have hc := get_customer_info_loggedIn sa cr
    rcases h2 : sa._get_customer_info cr with ⟨sb, _ | e⟩
    · exfalso
      apply h
      simp [KCWater.login, h1, h2]
    · rw [h1] at ht
      rw [h2] at hc
      simp only at ht hc
      simp [KCWater.login, h1, h2, hc, ht]
  · rw [h1] at ht
    simp only at ht
    simp [KCWater.login, h1, ht]

/-- C3: for a freshly constructed client, a completed `login()` sets
`loggedIn` to true exactly when `account_number`, `service_id`,
`customer_id` and `access_token` are all non-null afterwards, and on any
raised error the flag stays false (never-true atomicity, even though
fields assigned before the failure remain assigned); in particular
well-formed token and customer-info responses yield `loggedIn = true`
with all four identifiers exposed, and a token response missing
`access_token` raises `KeyError` and leaves `loggedIn = false`. -/
theorem claim_C3 (u p : String) (tr : TokenResponse) (cr : CustomerResponse) :
    (((KCWater.init u p).login tr cr).2 = none →
      ((KCWater.init u p).login tr cr).1.loggedIn =
        (((KCWater.init u p).login tr cr).1.account_number.isSome
          && ((KCWater.init u p).login tr cr).1.service_id.isSome
          && ((KCWater.init u p).login tr cr).1.customer_id.isSome
          && ((KCWater.init u p).login tr cr).1.access_token.isSome))
    ∧ (((KCWater.init u p).login tr cr).2 ≠ none →
        ((KCWater.init u p).login tr cr).1.loggedIn = false)
    ∧ (((KCWater.init u p).login tr cr).1.loggedIn = true →
        ((KCWater.init u p).login tr cr).1.account_number.isSome = true
          ∧ ((KCWater.init u p).login tr cr).1.service_id.isSome = true
          ∧ ((KCWater.init u p).login tr cr).1.customer_id.isSome = true
          ∧ ((KCWater.init u p).login tr cr).1.access_token.isSome = true)
    ∧ (∀ tok cid sid an rest,
        tr = ⟨some (some tok), some ⟨some (some cid)⟩⟩ →
        cr = ⟨some ⟨some (⟨some (some sid)⟩ :: rest)⟩, some ⟨some (some an)⟩⟩ →
        ((KCWater.init u p).login tr cr).2 = none
          ∧ ((KCWater.init u p).login tr cr).1.loggedIn = true
          ∧ ((KCWater.init u p).login tr cr).1.access_token = some tok
          ∧ ((KCWater.init u p).login tr cr).1.customer_id = some cid
          ∧ ((KCWater.init u p).login tr cr).1.service_id = some sid
          ∧ ((KCWater.init u p).login tr cr).1.account_number = some an)
    ∧ (tr.access_token = none →
        ((KCWater.init u p).login tr cr).2 = some PyErr.keyError
          ∧ ((KCWater.init u p).login tr cr).1.loggedIn = false) := by
  refine ⟨login_ok_loggedIn _ tr cr, ?_, ?_, ?_, ?_⟩
  · intro hne
    rw [login_err_loggedIn _ tr cr hne]
    rfl
  · intro htrue
    by_cases he : ((KCWater.init u p).login tr cr).2 = none
    · have := login_ok_loggedIn _ tr cr he
      rw [htrue] at this
      have hconj := this.symm
      simp only [Bool.and_eq_true] at hconj
      exact ⟨hconj.1.1.1, hconj.1.1.2, hconj.1.2, hconj.2⟩
    · have := login_err_loggedIn _ tr cr he
      rw [htrue] at this
      exact absurd this.symm (by simp [KCWater.init])
  · intro tok cid sid an rest htr hcr
    subst htr
    subst hcr
    refine ⟨?_, ?_, ?_, ?_, ?_, ?_⟩ <;>
      simp [KCWater.login, KCWater._get_token, KCWater._get_customer_info, KCWater.init]
  · intro hat
    obtain ⟨at?, u?⟩ := tr
    simp only at hat
    subst hat
    exact ⟨rfl, rfl⟩

/-- Witness for C3: concrete well-formed responses log the fresh client in
and expose the identifiers. -/
theorem claim_C3_witness :
    ((KCWater.init "user" "pw").login ⟨some (some "tok"), some ⟨some (some "cid")⟩⟩
        ⟨some ⟨some [⟨some (some "sid")⟩]⟩, some ⟨some (some "acct")⟩⟩).1.loggedIn = true
    ∧ ((KCWater.init "user" "pw").login ⟨some (some "tok"), some ⟨some (some "cid")⟩⟩
        ⟨some ⟨some [⟨some (some "sid")⟩]⟩, some ⟨some (some "acct")⟩⟩).1.access_token
      = some "tok" := by
  have h := (claim_C3 "user" "pw" ⟨some (some "tok"), some ⟨some (some "cid")⟩⟩
    ⟨some ⟨some [⟨some (some "sid")⟩]⟩, some ⟨some (some "acct")⟩⟩).2.2.2.1
    "tok" "cid" "sid" "acct" [] rfl rfl
  exact ⟨h.2.1, h.2.2.1⟩

/-- C5: whenever `loggedIn` is false, `get_usage_hourly` returns no result
(`None`) as a normal return value — a soft, reportable error rather than a
raised exception — issues no network request (no payload is built or
sent), and leaves the client state untouched. -/
theorem claim_C5 (s : KCWater) (moduleToday : Date) (dateArg : Option Date)
    (resp : UsageResponse) (h : s.loggedIn = false) :
    (s.get_usage_hourly moduleToday dateArg resp).outcome = Except.ok none
    ∧ (s.get_usage_hourly moduleToday dateArg resp).networkCalled = false
    ∧ (s.get_usage_hourly moduleToday dateArg resp).payload = none
    ∧ (s.get_usage_hourly moduleToday dateArg resp).state = s := by
  refine ⟨?_, ?_, ?_, ?_⟩ <;> simp [KCWater.get_usage_hourly, h]

/-- Witness for C5: a freshly constructed (never logged in) client. -/
theorem claim_C5_witness :
    ((KCWater.init "user" "pw").get_usage_hourly ⟨2024, 1, 15⟩ none
        ⟨some []⟩).outcome = Except.ok none
    ∧ ((KCWater.init "user" "pw").get_usage_hourly ⟨2024, 1, 15⟩ none
        ⟨some []⟩).networkCalled = false := by
  have h := claim_C5 (KCWater.init "user" "pw") ⟨2024, 1, 15⟩ none ⟨some []⟩ rfl
  exact ⟨h.1, h.2.1⟩

/-- C9: `get_usage_hourly` never mutates the session state: whatever the
inputs and however the call ends (readings, `None` for lack of login, or a
raised parse error), the state afterwards — `loggedIn`, `access_token`,
`customer_id`, `account_number`, `service_id`, `account_port` and
`headers` included — is exactly the state before. -/
theorem claim_C9 (s : KCWater) (moduleToday : Date) (dateArg : Option Date)
    (resp : UsageResponse) :
    (s.get_usage_hourly moduleToday dateArg resp).state = s := by
  rcases h : s.loggedIn with _ | _ <;> simp [KCWater.get_usage_hourly, h]

/-- Counterexample to C2 as stated: the `date=today` default argument was
evaluated once, at module import, from the module-level `today` (source
lines 27-30), so the date formatted into the payload is the module-load
date, not the current date at the moment of the call.  Concretely, with
the module loaded on 2024-01-01, every later no-argument call — e.g. one
made on 2024-01-02 — still sends "01-Jan-2024", which differs from the
formatted current date of that call. -/
theorem claim_C2_counterexample :
    ((sampleClient.get_usage_hourly ⟨2024, 1, 1⟩ none ⟨some []⟩).payload.map
        UsagePayload.month) = some "01-Jan-2024"
    ∧ "01-Jan-2024" ≠ strftime_dbY ⟨2024, 1, 2⟩ := by
  constructor
  · rfl
  · decide

/-- C2 (amended): for every call to `get_usage_hourly` with no explicit
date argument by a logged-in client, the date formatted into the payload's
month and day fields is the module-load date (the value the `today`
default captured when the module was imported), together with the stored
identifiers and port; it equals the call-time date only when the two
coincide. -/
theorem claim_C2 (s : KCWater) (moduleToday : Date) (resp : UsageResponse)
    (hlog : s.loggedIn = true) :
    (s.get_usage_hourly moduleToday none resp).payload =
      some { customerId := pyStr s.customer_id
             accountNumber := pyStr s.account_number
             serviceId := pyStr s.service_id
             month := strftime_dbY moduleToday
             day := strftime_dbY moduleToday
             port := toString s.account_port } := by
  simp [KCWater.get_usage_hourly, hlog]

/-- Witness for C2 (amended): a concrete logged-in client with module-load
date 2024-01-01 sends "01-Jan-2024" in both fields. -/
theorem claim_C2_witness :
    (sampleClient.get_usage_hourly ⟨2024, 1, 1⟩ none ⟨some []⟩).payload =
      some { customerId := "cid", accountNumber := "acct", serviceId := "sid",
             month := "01-Jan-2024", day := "01-Jan-2024", port := "1" } := by
  have h := claim_C2 sampleClient ⟨2024, 1, 1⟩ ⟨some []⟩ rfl
  rw [h]
  decide

/-- Helper: on a well-formed raw record the loop body produces exactly the
Reading described by the spec — combined 12-hour timestamp plus verbatim
field copies. -/
lemma parseReading_wf (r : RawRecord) (h : hourlyWF r = true) :
    parseReading r = Except.ok (specReading r) := by
  obtain ⟨rd?, rt?, u?, m?, g?, rc?, sc?, p?⟩ := r
  simp only [hourlyWF, Bool.and_eq_true, Option.isSome_iff_exists] at h
  obtain ⟨⟨⟨⟨⟨⟨⟨⟨⟨rd, hrd⟩, rt, hrt⟩, uu, hu⟩, mm, hm⟩, gg, hg⟩, rc, hrc⟩, sc, hsc⟩,
    pp, hp⟩, tt, htt⟩ := h
  subst hrd hrt hu hm hg hrc hsc hp
  simp only [Option.getD_some] at htt
  simp [parseReading, specReading, dget, htt, Bind.bind, Except.bind]

/-- Helper: the whole parse loop on a list of well-formed records is the
element-wise map, in order. -/
lemma parseHistory_wf (rs : List RawRecord) (h : ∀ r ∈ rs, hourlyWF r = true) :
    parseHistory rs = Except.ok (rs.map specReading) := by
  induction rs with
  | nil => rfl
  | cons r rest ih =>
    have hr := parseReading_wf r (h r (by simp))
    have hrest := ih fun x hx => h x (by simp [hx])
    simp [parseHistory, hr, hrest, Bind.bind, Except.bind]

/-- C6: for every well-formed hourly-usage response, `get_usage_hourly`
maps each history record to one Reading whose `readDateTime` is the
12-hour-clock combination of the record's `readDate` (month-day-year) and
`readDateTime` hour strings and whose other fields are copied verbatim,
preserving the response order. -/
theorem claim_C6 (s : KCWater) (moduleToday : Date) (dateArg : Option Date)
    (rs : List RawRecord) (hlog : s.loggedIn = true)
    (hwf : ∀ r ∈ rs, hourlyWF r = true) :
    (s.get_usage_hourly moduleToday dateArg ⟨some rs⟩).outcome
      = Except.ok (some (rs.map specReading)) := by
  simp [KCWater.get_usage_hourly, hlog, parseHistory_wf rs hwf, Bind.bind, Except.bind]

/-- Witness for C6: the spec's sample record parses to January 15 2024,
07:00 (instant 63840898800 in the seconds model) with the other fields
copied verbatim. -/
theorem claim_C6_witness :
    (sampleClient.get_usage_hourly ⟨2024, 1, 15⟩ none
        ⟨some [⟨some (some "01-15-2024"), some (some "7 AM"), some (some "GAL"),
          some (some "123"), some (some "50"), some (some "1000"), some (some "1050"),
          some (some "1")⟩]⟩).outcome
      = Except.ok (some [⟨63840898800, some "GAL", some "123", some "50", some "1000",
          some "1050", some "1"⟩]) := by
  have h := claim_C6 sampleClient ⟨2024, 1, 15⟩ none
    [⟨some (some "01-15-2024"), some (some "7 AM"), some (some "GAL"), some (some "123"),
      some (some "50"), some (some "1000"), some (some "1050"), some (some "1")⟩]
    rfl (by decide)
  rw [h]
  rfl

/-- Counterexample to C1 as stated: a history record whose `meterNumber`
KEY is absent but whose every other field is present and parsable makes
`get_usage_hourly` raise `KeyError` at the `r["meterNumber"]` lookup
(source line 145) instead of succeeding — absence of the `meterNumber` key
is a parse failure exactly like absence of any other key. -/
theorem claim_C1_counterexample :
    (sampleClient.get_usage_hourly ⟨2024, 1, 15⟩ none
        ⟨some [⟨some (some "01-15-2024"), some (some "7 AM"), some (some "GAL"), none,
          some (some "50"), some (some "1000"), some (some "1050"),
          some (some "1")⟩]⟩).outcome
      = Except.error PyErr.keyError := by
  rfl

/-- C1 (amended): what may be absent is the `meterNumber` VALUE, not the
key: a record carrying `meterNumber: null` (with every field parsable)
makes `get_usage_hourly` (logged in) succeed and return a Reading whose
`meterNumber` is `None`; a record whose `meterNumber` key is missing makes
the call fail with `KeyError`, exactly like a missing occurrence of any
other required key. -/
theorem claim_C1 (s : KCWater) (moduleToday : Date) (dateArg : Option Date)
    (r : RawRecord) (hlog : s.loggedIn = true) :
    (hourlyWF r = true → r.meterNumber = some none →
      (s.get_usage_hourly moduleToday dateArg ⟨some [r]⟩).outcome
          = Except.ok (some [specReading r])
        ∧ (specReading r).meterNumber = none)
    ∧ (∀ rd rt t uu, r.readDate = some rd → r.readDateTime = some rt →
        strptime_mdY_Ip (pyStr rd) (pyStr rt) = some t → r.uom = some uu →
        r.meterNumber = none →
        (s.get_usage_hourly moduleToday dateArg ⟨some [r]⟩).outcome
          = Except.error PyErr.keyError) := by
  constructor
  · intro hwf hmn
    constructor
    · have hall : ∀ x ∈ [r], hourlyWF x = true := by
        intro x hx
        simp only [List.mem_singleton] at hx
        subst hx
        exact hwf
      simp [KCWater.get_usage_hourly, hlog, parseHistory_wf [r] hall, Bind.bind, Except.bind]
    · simp [specReading, hmn]
  · intro rd rt t uu hrd hrt ht hu hmn
    have hpr : parseReading r = Except.error PyErr.keyError := by
      simp [parseReading, dget, hrd, hrt, ht, hu, hmn, Bind.bind, Except.bind]
    simp [KCWater.get_usage_hourly, hlog, parseHistory, hpr, Bind.bind, Except.bind]

/-- Witness for C1 (amended): a concrete record with `meterNumber: null`
parses into a Reading with `meterNumber = None`. -/
theorem claim_C1_witness :
    (sampleClient.get_usage_hourly ⟨2024, 1, 15⟩ none
        ⟨some [⟨some (some "01-15-2024"), some (some "7 AM"), some (some "GAL"),
          some none, some (some "50"), some (some "1000"), some (some "1050"),
          some (some "1")⟩]⟩).outcome
      = Except.ok (some [specReading ⟨some (some "01-15-2024"), some (some "7 AM"),
          some (some "GAL"), some none, some (some "50"), some (some "1000"),
          some (some "1050"), some (some "1")⟩])
    ∧ (specReading ⟨some (some "01-15-2024"), some (some "7 AM"), some (some "GAL"),
        some none, some (some "50"), some (some "1000"), some (some "1050"),
        some (some "1")⟩).meterNumber = none := by
  exact (claim_C1 sampleClient ⟨2024, 1, 15⟩ none _ rfl).1 (by decide) rfl
